import Mathlib

/-!
Verification of the box-drawing module: a 256-entry glyph table mapping
quads (top, right, bottom, left), each component in [0,3], to Unicode
box-drawing characters, together with a quad combiner that overlays a new
quad on an existing one componentwise.
-/

namespace BoxDrawing

/-- Four values indicating the composition of the box character:
`(top, right, bottom, left)`, each 0 = absent, 1 = thin, 2 = heavy, 3 = double. -/
abbrev Quad := Nat × Nat × Nat × Nat

/-- The hand-authored glyph table `BOX_CHARACTERS`, transcribed entry by entry
from the source dict (256 entries, no duplicate keys). -/
def BOX_CHARACTERS : List (Quad × Char) := [
  ((0, 0, 0, 0), ' '),
  ((0, 0, 0, 1), '╴'),
  ((0, 0, 0, 2), '╸'),
  ((0, 0, 0, 3), '╸'),
  ((0, 0, 1, 0), '╷'),
  ((0, 0, 1, 1), '┐'),
  ((0, 0, 1, 2), '┑'),
  ((0, 0, 1, 3), '╕'),
  ((0, 0, 2, 0), '╻'),
  ((0, 0, 2, 1), '┒'),
  ((0, 0, 2, 2), '┓'),
  ((0, 0, 2, 3), '╕'),
  ((0, 0, 3, 0), '╻'),
  ((0, 0, 3, 1), '╖'),
  ((0, 0, 3, 2), '╖'),
  ((0, 0, 3, 3), '╗'),
  ((0, 1, 0, 0), '╶'),
  ((0, 1, 0, 1), '─'),
  ((0, 1, 0, 2), '╾'),
  ((0, 1, 0, 3), '╼'),
  ((0, 1, 1, 0), '┌'),
  ((0, 1, 1, 1), '┬'),
  ((0, 1, 1, 2), '┭'),
  ((0, 1, 1, 3), '╤'),
  ((0, 1, 2, 0), '┎'),
  ((0, 1, 2, 1), '┰'),
  ((0, 1, 2, 2), '┱'),
  ((0, 1, 2, 3), '┱'),
  ((0, 1, 3, 0), '╓'),
  ((0, 1, 3, 1), '╥'),
  ((0, 1, 3, 2), '╥'),
  ((0, 1, 3, 3), '╥'),
  ((0, 2, 0, 0), '╺'),
  ((0, 2, 0, 1), '╼'),
  ((0, 2, 0, 2), '━'),
  ((0, 2, 0, 3), '━'),
  ((0, 2, 1, 0), '┍'),
  ((0, 2, 1, 1), '┮'),
  ((0, 2, 1, 2), '┯'),
  ((0, 2, 1, 3), '┯'),
  ((0, 2, 2, 0), '┏'),
  ((0, 2, 2, 1), '┲'),
  ((0, 2, 2, 2), '┳'),
  ((0, 2, 2, 3), '╦'),
  ((0, 2, 3, 0), '╒'),
  ((0, 2, 3, 1), '╥'),
  ((0, 2, 3, 2), '╥'),
  ((0, 2, 3, 3), '╦'),
  ((0, 3, 0, 0), '╺'),
  ((0, 3, 0, 1), '╾'),
  ((0, 3, 0, 2), '╾'),
  ((0, 3, 0, 3), '═'),
  ((0, 3, 1, 0), '╒'),
  ((0, 3, 1, 1), '╤'),
  ((0, 3, 1, 2), '╤'),
  ((0, 3, 1, 3), '╤'),
  ((0, 3, 2, 0), '╒'),
  ((0, 3, 2, 1), '╤'),
  ((0, 3, 2, 2), '╤'),
  ((0, 3, 2, 3), '╤'),
  ((0, 3, 3, 0), '╔'),
  ((0, 3, 3, 1), '╦'),
  ((0, 3, 3, 2), '╦'),
  ((0, 3, 3, 3), '╦'),
  ((1, 0, 0, 0), '╵'),
  ((1, 0, 0, 1), '┘'),
  ((1, 0, 0, 2), '┙'),
  ((1, 0, 0, 3), '╛'),
  ((1, 0, 1, 0), '│'),
  ((1, 0, 1, 1), '┤'),
  ((1, 0, 1, 2), '┥'),
  ((1, 0, 1, 3), '╡'),
  ((1, 0, 2, 0), '╽'),
  ((1, 0, 2, 1), '┧'),
  ((1, 0, 2, 2), '┪'),
  ((1, 0, 2, 3), '┪'),
  ((1, 0, 3, 0), '╽'),
  ((1, 0, 3, 1), '┧'),
  ((1, 0, 3, 2), '┪'),
  ((1, 0, 3, 3), '┪'),
  ((1, 1, 0, 0), '└'),
  ((1, 1, 0, 1), '┴'),
  ((1, 1, 0, 2), '┵'),
  ((1, 1, 0, 3), '┵'),
  ((1, 1, 1, 0), '├'),
  ((1, 1, 1, 1), '┼'),
  ((1, 1, 1, 2), '┽'),
  ((1, 1, 1, 3), '┽'),
  ((1, 1, 2, 0), '┟'),
  ((1, 1, 2, 1), '╁'),
  ((1, 1, 2, 2), '╅'),
  ((1, 1, 2, 3), '╅'),
  ((1, 1, 3, 0), '┟'),
  ((1, 1, 3, 1), '╁'),
  ((1, 1, 3, 2), '╅'),
  ((1, 1, 3, 3), '╅'),
  ((1, 2, 0, 0), '┕'),
  ((1, 2, 0, 1), '┶'),
  ((1, 2, 0, 2), '┷'),
  ((1, 2, 0, 3), '╧'),
  ((1, 2, 1, 0), '┝'),
  ((1, 2, 1, 1), '┾'),
  ((1, 2, 1, 2), '┿'),
  ((1, 2, 1, 3), '┿'),
  ((1, 2, 2, 0), '┢'),
  ((1, 2, 2, 1), '╆'),
  ((1, 2, 2, 2), '╈'),
  ((1, 2, 2, 3), '╈'),
  ((1, 2, 3, 0), '┢'),
  ((1, 2, 3, 1), '╆'),
  ((1, 2, 3, 2), '╈'),
  ((1, 2, 3, 3), '╈'),
  ((1, 3, 0, 0), '╘'),
  ((1, 3, 0, 1), '╧'),
  ((1, 3, 0, 2), '╧'),
  ((1, 3, 0, 3), '╧'),
  ((1, 3, 1, 0), '╞'),
  ((1, 3, 1, 1), '╬'),
  ((1, 3, 1, 2), '╪'),
  ((1, 3, 1, 3), '╪'),
  ((1, 3, 2, 0), '╟'),
  ((1, 3, 2, 1), '┾'),
  ((1, 3, 2, 2), '┾'),
  ((1, 3, 2, 3), '╪'),
  ((1, 3, 3, 0), '╞'),
  ((1, 3, 3, 1), '╆'),
  ((1, 3, 3, 2), '╆'),
  ((1, 3, 3, 3), '╈'),
  ((2, 0, 0, 0), '╹'),
  ((2, 0, 0, 1), '┚'),
  ((2, 0, 0, 2), '┛'),
  ((2, 0, 0, 3), '╛'),
  ((2, 0, 1, 0), '╿'),
  ((2, 0, 1, 1), '┦'),
  ((2, 0, 1, 2), '┩'),
  ((2, 0, 1, 3), '┩'),
  ((2, 0, 2, 0), '┃'),
  ((2, 0, 2, 1), '┨'),
  ((2, 0, 2, 2), '┫'),
  ((2, 0, 2, 3), '╢'),
  ((2, 0, 3, 0), '║'),
  ((2, 0, 3, 1), '╢'),
  ((2, 0, 3, 2), '╢'),
  ((2, 0, 3, 3), '╢'),
  ((2, 1, 0, 0), '┖'),
  ((2, 1, 0, 1), '┸'),
  ((2, 1, 0, 2), '┹'),
  ((2, 1, 0, 3), '┹'),
  ((2, 1, 1, 0), '┞'),
  ((2, 1, 1, 1), '╀'),
  ((2, 1, 1, 2), '╃'),
  ((2, 1, 1, 3), '╃'),
  ((2, 1, 2, 0), '┠'),
  ((2, 1, 2, 1), '╂'),
  ((2, 1, 2, 2), '╉'),
  ((2, 1, 2, 3), '╉'),
  ((2, 1, 3, 0), '╟'),
  ((2, 1, 3, 1), '╫'),
  ((2, 1, 3, 2), '╫'),
  ((2, 1, 3, 3), '╫'),
  ((2, 2, 0, 0), '┗'),
  ((2, 2, 0, 1), '┺'),
  ((2, 2, 0, 2), '┻'),
  ((2, 2, 0, 3), '┻'),
  ((2, 2, 1, 0), '┡'),
  ((2, 2, 1, 1), '╄'),
  ((2, 2, 1, 2), '╇'),
  ((2, 2, 1, 3), '╇'),
  ((2, 2, 2, 0), '┣'),
  ((2, 2, 2, 1), '╊'),
  ((2, 2, 2, 2), '╋'),
  ((2, 2, 2, 3), '╬'),
  ((2, 2, 3, 0), '╠'),
  ((2, 2, 3, 1), '╬'),
  ((2, 2, 3, 2), '╬'),
  ((2, 2, 3, 3), '╬'),
  ((2, 3, 0, 0), '╚'),
  ((2, 3, 0, 1), '╩'),
  ((2, 3, 0, 2), '╩'),
  ((2, 3, 0, 3), '╩'),
  ((2, 3, 1, 0), '╞'),
  ((2, 3, 1, 1), '╬'),
  ((2, 3, 1, 2), '╬'),
  ((2, 3, 1, 3), '╬'),
  ((2, 3, 2, 0), '╞'),
  ((2, 3, 2, 1), '╬'),
  ((2, 3, 2, 2), '╬'),
  ((2, 3, 2, 3), '╬'),
  ((2, 3, 3, 0), '╠'),
  ((2, 3, 3, 1), '╬'),
  ((2, 3, 3, 2), '╬'),
  ((2, 3, 3, 3), '╬'),
  ((3, 0, 0, 0), '╹'),
  ((3, 0, 0, 1), '╜'),
  ((3, 0, 0, 2), '╜'),
  ((3, 0, 0, 3), '╝'),
  ((3, 0, 1, 0), '╿'),
  ((3, 0, 1, 1), '┦'),
  ((3, 0, 1, 2), '┦'),
  ((3, 0, 1, 3), '┩'),
  ((3, 0, 2, 0), '║'),
  ((3, 0, 2, 1), '╢'),
  ((3, 0, 2, 2), '╢'),
  ((3, 0, 2, 3), '╣'),
  ((3, 0, 3, 0), '║'),
  ((3, 0, 3, 1), '╢'),
  ((3, 0, 3, 2), '╢'),
  ((3, 0, 3, 3), '╣'),
  ((3, 1, 0, 0), '╙'),
  ((3, 1, 0, 1), '╨'),
  ((3, 1, 0, 2), '╨'),
  ((3, 1, 0, 3), '╩'),
  ((3, 1, 1, 0), '╟'),
  ((3, 1, 1, 1), '╬'),
  ((3, 1, 1, 2), '╬'),
  ((3, 1, 1, 3), '╬'),
  ((3, 1, 2, 0), '╟'),
  ((3, 1, 2, 1), '╬'),
  ((3, 1, 2, 2), '╬'),
  ((3, 1, 2, 3), '╬'),
  ((3, 1, 3, 0), '╟'),
  ((3, 1, 3, 1), '╫'),
  ((3, 1, 3, 2), '╫'),
  ((3, 1, 3, 3), '╉'),
  ((3, 2, 0, 0), '╙'),
  ((3, 2, 0, 1), '╨'),
  ((3, 2, 0, 2), '╨'),
  ((3, 2, 0, 3), '╩'),
  ((3, 2, 1, 0), '╟'),
  ((3, 2, 1, 1), '╬'),
  ((3, 2, 1, 2), '╬'),
  ((3, 2, 1, 3), '╬'),
  ((3, 2, 2, 0), '╟'),
  ((3, 2, 2, 1), '╬'),
  ((3, 2, 2, 2), '╬'),
  ((3, 2, 2, 3), '╬'),
  ((3, 2, 3, 0), '╟'),
  ((3, 2, 3, 1), '╫'),
  ((3, 2, 3, 2), '╫'),
  ((3, 2, 3, 3), '╬'),
  ((3, 3, 0, 0), '╚'),
  ((3, 3, 0, 1), '╩'),
  ((3, 3, 0, 2), '╩'),
  ((3, 3, 0, 3), '╩'),
  ((3, 3, 1, 0), '╠'),
  ((3, 3, 1, 1), '╄'),
  ((3, 3, 1, 2), '╄'),
  ((3, 3, 1, 3), '╇'),
  ((3, 3, 2, 0), '╠'),
  ((3, 3, 2, 1), '╬'),
  ((3, 3, 2, 2), '╬'),
  ((3, 3, 2, 3), '╬'),
  ((3, 3, 3, 0), '╠'),
  ((3, 3, 3, 1), '╊'),
  ((3, 3, 3, 2), '╬'),
  ((3, 3, 3, 3), '╬')]

/-- Look up the display character for a quad in the glyph table
(dict indexing in the source; `none` models a missing-key fault). -/
def lookupGlyph (q : Quad) : Option Char :=
  BOX_CHARACTERS.lookup q

/-- Python `or` on integers restricted to naturals: returns the first operand
if it is nonzero (truthy), otherwise the second. -/
def pyOr (a b : Nat) : Nat :=
  if a ≠ 0 then a else b

/-- `combine_quads box1 box2`: combine two box drawing quads. For each of
the four directions the source computes `top2 or top1` etc., i.e. the new
quad's component when nonzero, else the existing quad's component. -/
def combine_quads (box1 box2 : Quad) : Quad :=
  match box1, box2 with
  | (top1, right1, bottom1, left1), (top2, right2, bottom2, left2) =>
    (pyOr top2 top1, pyOr right2 right1, pyOr bottom2 bottom1, pyOr left2 left1)

/-- A quad is valid when each component lies in the closed range [0,3]. -/
def validQuad (q : Quad) : Prop :=
  q.1 ≤ 3 ∧ q.2.1 ≤ 3 ∧ q.2.2.1 ≤ 3 ∧ q.2.2.2 ≤ 3

instance (q : Quad) : Decidable (validQuad q) := by
  unfold validQuad; infer_instance

/-- Projection of a quad's component in direction `i`
(0 = top, 1 = right, 2 = bottom, 3 = left). -/
def quadComp : Fin 4 → Quad → Nat
  | 0, q => q.1
  | 1, q => q.2.1
  | 2, q => q.2.2.1
  | 3, q => q.2.2.2

/-- Cache keys of the memoized combiner are the pairs of argument quads. -/
abbrev CacheKey := Quad × Quad

/-- The capacity of the source's `lru_cache(1024)` layer. -/
def lruCapacity : Nat := 1024

/-- Model of the `lru_cache(1024)` layer around `combine_quads`: the cache is
a most-recently-used-first association list. A hit returns the stored value
and moves its entry to the front; a miss computes the merge logic, stores it
at the front and drops entries beyond the capacity. -/
def cacheStep (cache : List (CacheKey × Quad)) (k : CacheKey) :
    Quad × List (CacheKey × Quad) :=
  match cache.lookup k with
  | some v => (v, (k, v) :: cache.eraseP (fun e => e.1 == k))
  | none =>
      let v := combine_quads k.1 k.2
      (v, ((k, v) :: cache).take lruCapacity)

/-- A cache state is coherent when every stored entry holds exactly the value
the uncached merge logic returns for its key. -/
def Coherent (cache : List (CacheKey × Quad)) : Prop :=
  ∀ e ∈ cache, e.2 = combine_quads e.1.1 e.1.2

instance (cache : List (CacheKey × Quad)) : Decidable (Coherent cache) := by
  unfold Coherent; infer_instance

theorem lookup_mem {α β : Type} [BEq α] [LawfulBEq α] {l : List (α × β)} {k : α}
    {v : β} (h : l.lookup k = some v) : (k, v) ∈ l := by
  induction l with
  | nil => simp [List.lookup] at h
  | cons e t ih =>
    obtain ⟨k', v'⟩ := e
    by_cases hk : k = k'
    · subst hk
      simp [List.lookup] at h
      simp [h]
    · have hb : (k == k') = false := beq_false_of_ne hk
      simp [List.lookup, hb] at h
      exact List.mem_cons_of_mem _ (ih h)

theorem pyOr_eq_or (a b : Nat) : pyOr a b = a ∨ pyOr a b = b := by
  unfold pyOr; split <;> simp

theorem pyOr_assoc (a b c : Nat) : pyOr (pyOr a b) c = pyOr a (pyOr b c) := by
  unfold pyOr
  by_cases ha : a = 0 <;> by_cases hb : b = 0 <;> simp [ha, hb]

theorem pyOr_idem (a : Nat) : pyOr a a = a := by
  unfold pyOr; split <;> rfl

/-- C1: for all quads base and overlay with every component in [0,3],
`combine_quads base overlay` returns the quad whose component in each of the
four directions equals the overlay's component when it is nonzero, and the
base's component otherwise. -/
theorem combine_quads_spec (base overlay : Quad)
    (hb : validQuad base) (ho : validQuad overlay) :
    combine_quads base overlay =
      ((if overlay.1 ≠ 0 then overlay.1 else base.1),
       (if overlay.2.1 ≠ 0 then overlay.2.1 else base.2.1),
       (if overlay.2.2.1 ≠ 0 then overlay.2.2.1 else base.2.2.1),
       (if overlay.2.2.2 ≠ 0 then overlay.2.2.2 else base.2.2.2)) := by
  obtain ⟨b1, b2, b3, b4⟩ := base
  obtain ⟨o1, o2, o3, o4⟩ := overlay
  rfl

/-- Witness for C1 at base (1,2,3,0), overlay (0,3,0,2). -/
theorem combine_quads_spec_witness :
    combine_quads (1, 2, 3, 0) (0, 3, 0, 2) =
      ((if (0 : Nat) ≠ 0 then (0 : Nat) else 1),
       (if (3 : Nat) ≠ 0 then (3 : Nat) else 2),
       (if (0 : Nat) ≠ 0 then (0 : Nat) else 3),
       (if (2 : Nat) ≠ 0 then (2 : Nat) else 0)) :=
  combine_quads_spec (1, 2, 3, 0) (0, 3, 0, 2) (by decide) (by decide)

/-- C2: for all components in {0,1,2,3} the glyph table has an entry, so an
in-domain lookup always returns a character and never hits a missing key. -/
theorem lookupGlyph_total :
    ∀ t < 4, ∀ r < 4, ∀ b < 4, ∀ l < 4, (lookupGlyph (t, r, b, l)).isSome := by
  decide

/-- Witness for C2 at the quad (1, 2, 3, 0). -/
theorem lookupGlyph_total_witness : (lookupGlyph (1, 2, 3, 0)).isSome :=
  lookupGlyph_total 1 (by decide) 2 (by decide) 3 (by decide) 0 (by decide)

/-- C3: the all-zero quad is a right identity for `combine_quads` on every
valid quad. -/
theorem combine_quads_identity (q : Quad) (h : validQuad q) :
    combine_quads q (0, 0, 0, 0) = q := by
  obtain ⟨a, b, c, d⟩ := q
  simp [combine_quads, pyOr]

/-- Witness for C3: the claim's particular case at the all-double quad. -/
theorem combine_quads_identity_witness :
    combine_quads (3, 3, 3, 3) (0, 0, 0, 0) = (3, 3, 3, 3) :=
  combine_quads_identity (3, 3, 3, 3) (by decide)

/-- C4: when every component of the overlay is nonzero the overlay completely
replaces the base: `combine_quads q o = o`. -/
theorem combine_quads_overlay_wins (q o : Quad)
    (hq : validQuad q) (ho : validQuad o)
    (h1 : o.1 ≠ 0) (h2 : o.2.1 ≠ 0) (h3 : o.2.2.1 ≠ 0) (h4 : o.2.2.2 ≠ 0) :
    combine_quads q o = o := by
  obtain ⟨q1, q2, q3, q4⟩ := q
  obtain ⟨o1, o2, o3, o4⟩ := o
  simp only at h1 h2 h3 h4
  simp [combine_quads, pyOr, h1, h2, h3, h4]

/-- Witness for C4 at base (0,1,2,3) and overlay (3,1,2,1). -/
theorem combine_quads_overlay_wins_witness :
    combine_quads (0, 1, 2, 3) (3, 1, 2, 1) = (3, 1, 2, 1) :=
  combine_quads_overlay_wins (0, 1, 2, 3) (3, 1, 2, 1) (by decide) (by decide)
    (by decide) (by decide) (by decide) (by decide)

/-- C5: the glyph table maps the all-zero quad to the space character, the
all-thin quad to the thin cross, and the all-heavy quad to the heavy cross. -/
theorem lookupGlyph_named_crosses :
    lookupGlyph (0, 0, 0, 0) = some ' ' ∧
    lookupGlyph (1, 1, 1, 1) = some '┼' ∧
    lookupGlyph (2, 2, 2, 2) = some '╋' := by
  refine ⟨?_, ?_, ?_⟩ <;> rfl

/-- C6: the two combine-then-lookup scenarios: merging (0,1,0,1) with overlay
(1,0,1,0) yields (1,1,1,1) whose glyph is the thin cross, and merging
(1,1,1,1) with overlay (0,2,0,0) yields (1,2,1,1) whose glyph is the
thin-and-heavy-right cross. -/
theorem combine_then_lookup_scenarios :
    combine_quads (0, 1, 0, 1) (1, 0, 1, 0) = (1, 1, 1, 1) ∧
    lookupGlyph (1, 1, 1, 1) = some '┼' ∧
    combine_quads (1, 1, 1, 1) (0, 2, 0, 0) = (1, 2, 1, 1) ∧
    lookupGlyph (1, 2, 1, 1) = some '┾' := by
  refine ⟨?_, ?_, ?_, ?_⟩ <;> rfl

/-- C7: componentwise independence: if two overlays agree on every direction
other than `i`, the combined results agree on every direction other than `i`;
changing one overlay component can only affect the same component of the
result. -/
theorem combine_quads_componentwise (base o o' : Quad)
    (hb : validQuad base) (ho : validQuad o) (ho' : validQuad o') (i : Fin 4)
    (hagree : ∀ j, j ≠ i → quadComp j o = quadComp j o') :
    ∀ j, j ≠ i →
      quadComp j (combine_quads base o) = quadComp j (combine_quads base o') := by
  obtain ⟨b1, b2, b3, b4⟩ := base
  obtain ⟨o1, o2, o3, o4⟩ := o
  obtain ⟨p1, p2, p3, p4⟩ := o'
  intro j hj
  have h := hagree j hj
  fin_cases j <;> simp [quadComp, combine_quads] at h ⊢ <;> rw [h]

/-- Witness for C7: overlays (1,0,2,0) and (1,3,2,0) differ only in the right
component (i = 1); the results over base (0,1,0,1) agree on top. -/
theorem combine_quads_componentwise_witness :
    quadComp 0 (combine_quads (0, 1, 0, 1) (1, 0, 2, 0)) =
      quadComp 0 (combine_quads (0, 1, 0, 1) (1, 3, 2, 0)) :=
  combine_quads_componentwise (0, 1, 0, 1) (1, 0, 2, 0) (1, 3, 2, 0)
    (by decide) (by decide) (by decide) 1 (by decide) 0 (by decide)

/-- C8: `combine_quads` is deterministic, and the `lru_cache(1024)` layer is
transparent: on any coherent cache state, a cached call returns exactly the
value of the uncached merge logic and leaves the cache coherent. -/
theorem combine_quads_cache_transparent (b o : Quad)
    (cache : List (CacheKey × Quad)) (h : Coherent cache) :
    combine_quads b o = combine_quads b o ∧
    (cacheStep cache (b, o)).1 = combine_quads b o ∧
    Coherent (cacheStep cache (b, o)).2 := by
  refine ⟨rfl, ?_⟩
  unfold cacheStep
  cases hl : cache.lookup (b, o) with
  | some v =>
    have hv : v = combine_quads b o := h _ (lookup_mem hl)
    refine ⟨hv, ?_⟩
    intro e he
    rcases List.mem_cons.mp he with rfl | he'
    · exact hv
    · exact h _ ((List.eraseP_sublist _).mem he')
  | none =>
    refine ⟨rfl, ?_⟩
    intro e he
    have he' := (List.take_sublist _ _).mem he
    rcases List.mem_cons.mp he' with rfl | he''
    · rfl
    · exact h _ he''

/-- Witness for C8: a coherent one-entry cache; both a hit and the returned
value match the uncached merge logic. -/
theorem combine_quads_cache_transparent_witness :
    (cacheStep [(((0, 1, 0, 1), (1, 0, 1, 0)), (1, 1, 1, 1))]
        ((0, 1, 0, 1), (1, 0, 1, 0))).1 =
      combine_quads (0, 1, 0, 1) (1, 0, 1, 0) :=
  (combine_quads_cache_transparent (0, 1, 0, 1) (1, 0, 1, 0)
    [(((0, 1, 0, 1), (1, 0, 1, 0)), (1, 1, 1, 1))] (by decide)).2.1

/-- C9: closure of the valid domain: each component of the result equals the
corresponding component of one of the two inputs, and the result of merging
two valid quads is again a valid quad (hence a key of the glyph table). -/
theorem combine_quads_closure (q o : Quad)
    (hq : validQuad q) (ho : validQuad o) :
    (((combine_quads q o).1 = q.1 ∨ (combine_quads q o).1 = o.1) ∧
     ((combine_quads q o).2.1 = q.2.1 ∨ (combine_quads q o).2.1 = o.2.1) ∧
     ((combine_quads q o).2.2.1 = q.2.2.1 ∨ (combine_quads q o).2.2.1 = o.2.2.1) ∧
     ((combine_quads q o).2.2.2 = q.2.2.2 ∨ (combine_quads q o).2.2.2 = o.2.2.2)) ∧
    validQuad (combine_quads q o) := by
  obtain ⟨q1, q2, q3, q4⟩ := q
  obtain ⟨o1, o2, o3, o4⟩ := o
  obtain ⟨hq1, hq2, hq3, hq4⟩ := hq
  obtain ⟨ho1, ho2, ho3, ho4⟩ := ho
  refine ⟨⟨?_, ?_, ?_, ?_⟩, ?_, ?_, ?_, ?_⟩
  · exact Or.symm (pyOr_eq_or o1 q1)
  · exact Or.symm (pyOr_eq_or o2 q2)
  · exact Or.symm (pyOr_eq_or o3 q3)
  · exact Or.symm (pyOr_eq_or o4 q4)
  · rcases pyOr_eq_or o1 q1 with h | h <;> simp [combine_quads, h, hq1, ho1]
  · rcases pyOr_eq_or o2 q2 with h | h <;> simp [combine_quads, h, hq2, ho2]
  · rcases pyOr_eq_or o3 q3 with h | h <;> simp [combine_quads, h, hq3, ho3]
  · rcases pyOr_eq_or o4 q4 with h | h <;> simp [combine_quads, h, hq4, ho4]

/-- Witness for C9 at q = (1,0,2,3), o = (0,3,1,0). -/
theorem combine_quads_closure_witness :
    validQuad (combine_quads (1, 0, 2, 3) (0, 3, 1, 0)) :=
  (combine_quads_closure (1, 0, 2, 3) (0, 3, 1, 0) (by decide) (by decide)).2

/-- C10: `combine_quads` is associative and idempotent on valid quads:
overlaying in groups reassociates freely and repeating an overlay changes
nothing. -/
theorem combine_quads_assoc_idem (a b c q : Quad)
    (ha : validQuad a) (hb : validQuad b) (hc : validQuad c) (hq : validQuad q) :
    combine_quads (combine_quads a b) c = combine_quads a (combine_quads b c) ∧
    combine_quads q q = q := by
  obtain ⟨a1, a2, a3, a4⟩ := a
  obtain ⟨b1, b2, b3, b4⟩ := b
  obtain ⟨c1, c2, c3, c4⟩ := c
  obtain ⟨q1, q2, q3, q4⟩ := q
  exact ⟨by simp [combine_quads, pyOr_assoc], by simp [combine_quads, pyOr_idem]⟩

/-- Witness for C10 at a = (1,0,0,2), b = (0,3,0,0), c = (2,2,2,2),
q = (0,1,2,3). -/
theorem combine_quads_assoc_idem_witness :
    combine_quads (combine_quads (1, 0, 0, 2) (0, 3, 0, 0)) (2, 2, 2, 2) =
      combine_quads (1, 0, 0, 2) (combine_quads (0, 3, 0, 0) (2, 2, 2, 2)) ∧
    combine_quads (0, 1, 2, 3) (0, 1, 2, 3) = (0, 1, 2, 3) :=
  combine_quads_assoc_idem (1, 0, 0, 2) (0, 3, 0, 0) (2, 2, 2, 2) (0, 1, 2, 3)
    (by decide) (by decide) (by decide) (by decide)

end BoxDrawing
